import Mathlib

/-!
Verification development for the Nachos lab7 virtual-memory manager
(`code/lab7/addrspace.cc`, `code/lab7/addrspace.h`, `code/lab7/exception.cc`).

The C++ code is shallowly embedded as executable Lean functions over an
explicit kernel state.  Machine integers are modelled as `Nat`/`Int`
(the code only uses the `-1` sentinel, modelled on `Int`), fallible or
undefined behaviour (assertion failures, out-of-bounds array accesses,
reads of uninitialized globals) is made explicit through `Except`.

External collaborators whose sources are not part of the repository
(the `BitMap` frame allocator, `machine.h` constants, the NOFF magic
constant, and the hardware's setting of use/dirty bits) are modelled
from the specification, as noted on each definition.  File I/O on the
swap file and calls into the allocator's `Clear` are recorded as an
event trace so that theorems can speak about the I/O the code performs.
-/

namespace NachosVM

/-- Constants from `code/lab7/addrspace.h`. -/
def UserStackSize : Nat := 1024

/-- Maximum number of resident pages (`addrspace.h`). -/
def MaxPages : Nat := 32

/-- Demand-paging threshold (`addrspace.h`). -/
def MinPages : Nat := 16

/-- Maximum number of eagerly loaded code pages (`addrspace.h`). -/
def CodePages : Nat := 8

/-- Maximum number of eagerly loaded data pages (`addrspace.h`). -/
def DataPages : Nat := 24

/-- Modelled from the spec: page size of the machine (`machine.h` is not part
of the repository; the Nachos value is 128 bytes, and no claim depends on the
particular value). -/
def PageSize : Nat := 128

/-- Modelled from the spec: the NOFF magic constant from `noff.h` (not part of
the repository; the standard Nachos value is `0xbadfad`). -/
def NOFFMAGIC : Nat := 0xbadfad

/-- `divRoundUp` from Nachos `utility.h`. -/
def divRoundUp (n d : Nat) : Nat := (n + d - 1) / d

/-- A NOFF segment descriptor (`noff.h`): size, virtual address, file offset. -/
structure Segment where
  size : Nat
  virtualAddr : Nat
  inFileAddr : Nat
deriving Repr, DecidableEq

/-- The NOFF executable header (`noff.h`). -/
structure NoffHeader where
  noffMagic : Nat
  code : Segment
  initData : Segment
  uninitData : Segment
deriving Repr, DecidableEq

/-- Byte-swap of a 32-bit word, the `WordToHost` conversion used by
`SwapHeader` in `addrspace.cc`. -/
def wordSwap (x : Nat) : Nat :=
  let b := x % 2 ^ 32
  (b % 256) * 2 ^ 24 + (b / 2 ^ 8 % 256) * 2 ^ 16 +
    (b / 2 ^ 16 % 256) * 2 ^ 8 + b / 2 ^ 24 % 256

/-- `SwapHeader` from `addrspace.cc`: byte-swaps every header field. -/
def swapHeader (h : NoffHeader) : NoffHeader :=
  { noffMagic := wordSwap h.noffMagic
    code := ⟨wordSwap h.code.size, wordSwap h.code.virtualAddr, wordSwap h.code.inFileAddr⟩
    initData := ⟨wordSwap h.initData.size, wordSwap h.initData.virtualAddr,
      wordSwap h.initData.inFileAddr⟩
    uninitData := ⟨wordSwap h.uninitData.size, wordSwap h.uninitData.virtualAddr,
      wordSwap h.uninitData.inFileAddr⟩ }

/-- A page-table entry (`TranslationEntry` from `machine/translate.h`, used
exactly as in `addrspace.cc`; `physicalPage` is an `int` in the code and uses
the `-1` sentinel, hence `Int` here). -/
structure TranslationEntry where
  virtualPage : Nat
  physicalPage : Int
  valid : Bool
  use : Bool
  dirty : Bool
  readOnly : Bool
deriving Repr, DecidableEq

/-- A live address space (`class AddrSpace` from `addrspace.h`);
`hasSwap` records whether the constructor created the swap file and
initialized `vmName` (it leaves `vmName` uninitialized otherwise). -/
structure Space where
  spaceID : Nat
  numPages : Nat
  count : Nat
  hasSwap : Bool
  pageTable : List TranslationEntry
deriving Repr, DecidableEq

/-- Observable effects of the code: swap-file I/O (`OpenFile::ReadAt` /
`WriteAt` / `FileSystem::Create` on the swap file) and calls into the frame
allocator's `Clear`. -/
inductive Event where
  | swapCreate (sizeBytes : Nat)
  | swapWrite (offset len : Nat)
  | swapRead (offset len : Nat)
  | bitmapClear (idx : Int)
deriving Repr, DecidableEq

/-- Explicit outcomes for assertion failures and C++ undefined behaviour. -/
inductive KernelError where
  | assertFail
  | oobPageTable
  | oobVpTable
  | badSpaceIndex
  | uninitializedVmName
  | notResident
deriving Repr, DecidableEq

/-- The kernel-wide state: the physical-frame bitmap, the `ThreadMap`
spaceID pool, the global `vpTable` working-set table (`unsigned int
vpTable[MaxPages]`, `-1` sentinel, shared by every address space), the live
address spaces, and the recorded event trace. -/
structure SysState where
  bitmap : List Bool
  threadMap : List Bool
  vpTable : List Int
  spaces : List Space
  events : List Event
deriving Repr, DecidableEq

/-- Modelled from the spec: `BitMap::NumClear` of the external allocator
(`bitmap.cc` is not part of the repository): the number of clear bits. -/
def bmNumClear (bm : List Bool) : Nat := bm.countP (· = false)

/-- Modelled from the spec: `BitMap::Find` of the external allocator: returns
the lowest clear bit and marks it, or `-1` when none is clear. -/
def bmFind (bm : List Bool) : Int × List Bool :=
  match bm.findIdx? (· = false) with
  | none => (-1, bm)
  | some i => ((i : Int), bm.set i true)

/-- Modelled from the spec: `BitMap::Clear` of the external allocator.  Its
contract requires an in-range index; an out-of-range call is modelled as
leaving the bits unchanged, and every call is recorded in the event trace so
that out-of-range arguments remain observable. -/
def bmClear (bm : List Bool) (i : Int) : List Bool :=
  if 0 ≤ i ∧ i.toNat < bm.length then bm.set i.toNat false else bm

/-- Replace the entry at index `i` (no effect when out of range). -/
def modifyAt (pt : List TranslationEntry) (i : Nat)
    (f : TranslationEntry → TranslationEntry) : List TranslationEntry :=
  match pt.get? i with
  | none => pt
  | some e => pt.set i (f e)

/-- The registration idiom used throughout `addrspace.cc` and `exception.cc`:
store `x` into the first `vpTable` slot holding `-1` (no effect when the
table is full, exactly as the bounded `for` loop in the code). -/
def vpInsert (vp : List Int) (x : Nat) : List Int :=
  match vp.findIdx? (· = -1) with
  | none => vp
  | some j => vp.set j (x : Int)

/-- The release idiom of the page-fault handler: set the first `vpTable` slot
holding `x` to `-1` (no effect when absent). -/
def vpRemove (vp : List Int) (x : Nat) : List Int :=
  match vp.findIdx? (· = (x : Int)) with
  | none => vp
  | some j => vp.set j (-1)

/-- The left-shift performed after victim selection in `PageReplace`
(`exception.cc`): `vpTable[i] = vpTable[i+1]` for `i < c`, then
`vpTable[c-1] = -1`; with `vpTable[c] = -1` the final assignment is the value
already shifted in, so slots at and beyond `c` keep their old values. -/
def shiftLeftPrefix (vp : List Int) (c : Nat) : List Int :=
  (List.range vp.length).map fun i =>
    if i < c then vp.getD (i + 1) (-1) else vp.getD i (-1)

/-- The `FIFO` branch of `PageReplace` (`exception.cc` lines 86-98).  `count`
scans for the first `-1` slot; a table with no `-1` makes the `while` loop
read past the end of the array (undefined behaviour), and `count = 0` makes
`readySwap = vpTable[count-1]` read `vpTable[-1]` (undefined behaviour).
Otherwise the victim returned is `vpTable[count-1]`, the most recently
inserted page, and the table is shifted left by one, silently dropping the
head `vpTable[0]`. -/
def pageReplaceFIFO (vp : List Int) : Except KernelError (Nat × List Int) :=
  match vp.findIdx? (· = -1) with
  | none => .error .oobVpTable
  | some 0 => .error .oobVpTable
  | some (c + 1) =>
    match vp.get? c with
    | none => .error .oobVpTable
    | some r => .ok (r.toNat, shiftLeftPrefix vp (c + 1))

/-- The `CLOCK` branch of `PageReplace` (`exception.cc` lines 110-130).  The
scan tests `pageTable[readySwap].use` where `readySwap` still holds
`vpTable[0]`; the line meant to clear the bit is written `use == FALSE`, a
comparison with no effect, so the condition never changes.  Consequently:
if the tested use bit is set the loop runs to `MaxPages` and the shift reads
`vpTable[MaxPages]` (undefined behaviour); if it is clear the loop breaks at
the first occupied slot, which is slot 0 whenever the head is occupied, and
`readySwap = vpTable[count-1]` reads `vpTable[-1]` (undefined behaviour).
An empty table also runs the loop to `MaxPages`. -/
def pageReplaceCLOCK (pt : List TranslationEntry) (vp : List Int) :
    Except KernelError (Nat × List Int) :=
  match vp.findIdx? (· ≠ -1) with
  | none => .error .oobVpTable
  | some c =>
    match vp.get? 0 with
    | none => .error .oobVpTable
    | some rs0 =>
      if hrs : 0 ≤ rs0 ∧ rs0.toNat < pt.length then
        if (pt.get ⟨rs0.toNat, hrs.2⟩).use then
          .error .oobVpTable
        else
          match c with
          | 0 => .error .oobVpTable
          | c + 1 => .ok ((vp.getD c (-1)).toNat, shiftLeftPrefix vp (c + 1))
      else .error .oobPageTable

/-- Sequential `BitMap::Find` calls, threading the bitmap, as performed by the
frame-allocation loops of the `AddrSpace` constructor. -/
def allocFrames (bm : List Bool) (n : Nat) : List Int × List Bool :=
  (List.range n).foldl
    (fun acc _ =>
      let fb := bmFind acc.2
      (acc.1 ++ [fb.1], fb.2))
    ([], bm)

/-- The eager data-segment loop of the constructor (`addrspace.cc` lines
227-243): for each page in `[dataStart, dataEnd)`, allocate a frame if the
entry is still invalid, mark it valid, and register it in `vpTable`.
Accessing an index beyond the page table is undefined behaviour. -/
def loadDataPages (dataStart dataEnd : Nat)
    (acc : List TranslationEntry × List Int × List Bool) :
    Except KernelError (List TranslationEntry × List Int × List Bool) :=
  (List.range (dataEnd - dataStart)).foldl
    (fun macc k =>
      match macc with
      | .error e => .error e
      | .ok (pt, vp, bm) =>
        let i := dataStart + k
        match pt.get? i with
        | none => .error .oobPageTable
        | some e =>
          let (e1, bm1) :=
            if e.valid = false then
              let fb := bmFind bm
              ({ e with physicalPage := fb.1 }, fb.2)
            else (e, bm)
          let e2 := { e1 with valid := true }
          .ok (pt.set i e2, vpInsert vp i, bm1))
    (.ok acc)

/-- The eager code-segment loop of the constructor (`addrspace.cc` lines
176-190): for each page in `[codeStart, codeStart + coPages)`, load it and
mark it valid, registering it in `vpTable`.  Accessing an index beyond the
page table is undefined behaviour. -/
def loadCodePages (codeStart coPages : Nat)
    (acc : List TranslationEntry × List Int) :
    Except KernelError (List TranslationEntry × List Int) :=
  (List.range coPages).foldl
    (fun macc k =>
      match macc with
      | .error e => .error e
      | .ok (pt, vp) =>
        let i := codeStart + k
        match pt.get? i with
        | none => .error .oobPageTable
        | some e => .ok (pt.set i { e with valid := true }, vpInsert vp i))
    (.ok acc)

/-- The `AddrSpace` constructor (`addrspace.cc` lines 60-263).

Order of operations, as in the source: allocate a spaceID from `ThreadMap`
(`ASSERT` on exhaustion); wipe the global `vpTable` to `-1`; read and
magic-check the header, byte-swapping it when only the swapped magic matches
(`ASSERT` when neither matches); compute `numPages`; decide demand paging
(`numPages > MinPages` creates the swap file, sized to the full image;
otherwise `vmName` stays uninitialized); `ASSERT(phPages <= NumClear)`;
allocate frames for up to `CodePages` code pages (entries invalid), leave the
middle pages with `physicalPage = -1`, allocate and validate the last page
(registering it); run the code-segment loop and its swap mirror; run the
data-segment loop and its swap mirror.  The data mirror's final chunk calls
`swapFile->ReadAt` (not `WriteAt`) at offset `virtualAddr + j*PageSize` with
`j` left at `k`, exactly as lines 254-255 of the source; it is recorded as a
`swapRead` event.  Only swap-file I/O is recorded; reads of the executable
and stores into `mainMemory` are not observable by any claim. -/
def createSpace (st : SysState) (hdr : NoffHeader) : Except KernelError SysState :=
  match st.threadMap.findIdx? (· = false) with
  | none => .error .assertFail
  | some sid =>
  let tm := st.threadMap.set sid true
  let vp0 : List Int := List.replicate MaxPages (-1)
  let h := if hdr.noffMagic ≠ NOFFMAGIC ∧ wordSwap hdr.noffMagic = NOFFMAGIC then
    swapHeader hdr else hdr
  if h.noffMagic ≠ NOFFMAGIC then .error .assertFail else
  let size0 := h.code.size + h.initData.size + h.uninitData.size + UserStackSize
  let numPages := divRoundUp size0 PageSize
  let size := numPages * PageSize
  let hasSwap := decide (MinPages < numPages)
  let phPages := if numPages ≤ MinPages then numPages else MinPages
  let evCreate : List Event := if hasSwap then [.swapCreate size] else []
  if ¬ phPages ≤ bmNumClear st.bitmap then .error .assertFail else
  let count0 := min (divRoundUp h.code.size PageSize) CodePages
  let fb0 := allocFrames st.bitmap count0
  let codeEntries := (List.range count0).map fun i =>
    { virtualPage := i, physicalPage := fb0.1.getD i (-1), valid := false,
      use := false, dirty := false, readOnly := false : TranslationEntry }
  let midEntries := (List.range (numPages - 1 - count0)).map fun k =>
    { virtualPage := count0 + k, physicalPage := -1, valid := false,
      use := false, dirty := false, readOnly := false : TranslationEntry }
  let fbLast := bmFind fb0.2
  let lastEntry : TranslationEntry :=
    { virtualPage := numPages - 1, physicalPage := fbLast.1, valid := true,
      use := false, dirty := false, readOnly := false }
  let pt0 := codeEntries ++ midEntries ++ [lastEntry]
  let count1 := count0 + 1
  let vp1 := vpInsert vp0 (numPages - 1)
  let codeStart := divRoundUp h.code.virtualAddr PageSize
  match loadCodePages codeStart count0 (pt0, vp1) with
  | .error e => .error e
  | .ok (pt1, vp2) =>
  let kC := divRoundUp h.code.size PageSize - 1
  let mirrorCode : List Event :=
    if 0 < h.code.size ∧ hasSwap then
      ((List.range kC).map fun j =>
        Event.swapWrite (h.code.virtualAddr + j * PageSize) PageSize)
      ++ [Event.swapWrite (h.code.virtualAddr + kC * PageSize)
            (h.code.size - kC * PageSize)]
    else []
  if 0 < h.initData.size then
    let dataStart := divRoundUp h.initData.virtualAddr PageSize
    let daPages := divRoundUp h.initData.size PageSize
    let dataEnd := dataStart + min daPages DataPages
    match loadDataPages dataStart dataEnd (pt1, vp2, fbLast.2) with
    | .error e => .error e
    | .ok (pt2, vp3, bm2) =>
    let count2 := count1 + (dataEnd - dataStart)
    let kD := daPages - 1 + dataStart
    let mirrorData : List Event :=
      if hasSwap then
        ((List.range (kD - dataStart)).map fun jj =>
          Event.swapWrite (h.initData.virtualAddr + jj * PageSize) PageSize)
        ++ [Event.swapRead (h.initData.virtualAddr + kD * PageSize)
              (h.initData.size - (kD - dataStart) * PageSize)]
      else []
    .ok { bitmap := bm2, threadMap := tm, vpTable := vp3,
          spaces := st.spaces ++
            [{ spaceID := sid, numPages := numPages, count := count2,
               hasSwap := hasSwap, pageTable := pt2 }],
          events := st.events ++ evCreate ++ mirrorCode ++ mirrorData }
  else
    .ok { bitmap := fbLast.2, threadMap := tm, vpTable := vp2,
          spaces := st.spaces ++
            [{ spaceID := sid, numPages := numPages, count := count1,
               hasSwap := hasSwap, pageTable := pt1 }],
          events := st.events ++ evCreate ++ mirrorCode }

/-- The `PageFaultException` branch of `ExceptionHandler` (`exception.cc`
lines 253-317), invoked with the faulting space and the faulting address.

The handler opens `pageSpace->vmName` (uninitialized unless the constructor
created a swap file — reading it is undefined behaviour), computes
`page = address / PageSize`, and dereferences `pageTable[page]` on every
path, with no bound check against `numPages`; an out-of-range `page` is
therefore an out-of-bounds access.  With a clear frame and
`count < MaxPages` it takes the free-frame path; otherwise it calls
`PageReplace(FIFO)`, writes the victim frame back when the victim entry is
dirty — at offset `pageTable[page].virtualPage * PageSize`, i.e. the
faulting page's offset, exactly as line 285 of the source — invalidates the
victim, removes it from `vpTable`, hands its frame to the faulting entry and
reloads it from swap.  Both paths end by marking the entry valid and
registering its `virtualPage` in `vpTable`. -/
def pageFault (st : SysState) (sidx addr : Nat) : Except KernelError SysState :=
  match st.spaces.get? sidx with
  | none => .error .badSpaceIndex
  | some sp =>
  if sp.hasSwap = false then .error .uninitializedVmName else
  let page := addr / PageSize
  match sp.pageTable.get? page with
  | none => .error .oobPageTable
  | some pe =>
  if 1 ≤ bmNumClear st.bitmap ∧ sp.count < MaxPages then
    let fb := bmFind st.bitmap
    let pe1 := { pe with
                 physicalPage := fb.1
                 valid := true
                 use := true
                 dirty := false }
    let pt1 := sp.pageTable.set page pe1
    .ok { st with
          bitmap := fb.2,
          vpTable := vpInsert st.vpTable pe1.virtualPage,
          spaces := st.spaces.set sidx
            { sp with count := sp.count + 1, pageTable := pt1 },
          events := st.events ++
            [Event.swapRead (pe1.virtualPage * PageSize) PageSize] }
  else
    match pageReplaceFIFO st.vpTable with
    | .error e => .error e
    | .ok (readySwap, vpA) =>
    match sp.pageTable.get? readySwap with
    | none => .error .oobPageTable
    | some ve =>
    let evWB : List Event :=
      if ve.dirty then [Event.swapWrite (pe.virtualPage * PageSize) PageSize]
      else []
    let ve1 := if ve.dirty then { ve with dirty := false } else ve
    let ptA := sp.pageTable.set readySwap { ve1 with valid := false }
    let vpB := vpRemove vpA readySwap
    let ptB := modifyAt ptA page fun e =>
      { e with
        physicalPage := ve.physicalPage
        valid := true
        use := true
        dirty := false }
    .ok { st with
          vpTable := vpInsert vpB pe.virtualPage,
          spaces := st.spaces.set sidx { sp with pageTable := ptB },
          events := st.events ++ evWB ++
            [Event.swapRead (pe.virtualPage * PageSize) PageSize] }

/-- The `AddrSpace` destructor (`addrspace.cc` lines 270-278): free the
spaceID in `ThreadMap`, then call `bitmap->Clear(pageTable[i].physicalPage)`
for every page `i`, valid or not — including the `-1` sentinel of pages that
never had a frame.  Every `Clear` call is recorded. -/
def destroySpace (st : SysState) (sidx : Nat) : Except KernelError SysState :=
  match st.spaces.get? sidx with
  | none => .error .badSpaceIndex
  | some sp =>
  let cleared := sp.pageTable.foldl
    (fun (acc : List Bool × List Event) e =>
      (bmClear acc.1 e.physicalPage, acc.2 ++ [Event.bitmapClear e.physicalPage]))
    (st.bitmap, [])
  .ok { st with
        threadMap := st.threadMap.set sp.spaceID false,
        bitmap := cleared.1,
        spaces := st.spaces.eraseIdx sidx,
        events := st.events ++ cleared.2 }

/-- Modelled from the spec: a user-mode write access through a valid mapping.
The machine (outside the repository) sets the entry's dirty and use bits on a
write — "Resident-Clean→Resident-Dirty on a write access (observed lazily by
the handler/policy, set by hardware elsewhere)".  A write through an invalid
mapping would instead raise the page fault modelled by `pageFault`. -/
def writeAccess (st : SysState) (sidx vpn : Nat) : Except KernelError SysState :=
  match st.spaces.get? sidx with
  | none => .error .badSpaceIndex
  | some sp =>
  match sp.pageTable.get? vpn with
  | none => .error .oobPageTable
  | some e =>
  if e.valid then
    let e1 := { e with dirty := true, use := true }
    let sp1 := { sp with pageTable := sp.pageTable.set vpn e1 }
    .ok { st with spaces := st.spaces.set sidx sp1 }
  else .error .notResident

/-- Kernel-level operations driving the state machine: program load
(`AddrSpace::AddrSpace`), a page fault on a given space, space teardown
(`AddrSpace::~AddrSpace`), and a hardware-observed write access. -/
inductive Op where
  | create (h : NoffHeader)
  | fault (sidx addr : Nat)
  | destroy (sidx : Nat)
  | write (sidx vpn : Nat)
deriving Repr, DecidableEq

/-- One step of the system. -/
def step (st : SysState) : Op → Except KernelError SysState
  | .create h => createSpace st h
  | .fault sidx addr => pageFault st sidx addr
  | .destroy sidx => destroySpace st sidx
  | .write sidx vpn => writeAccess st sidx vpn

/-- Run a sequence of operations from a state, stopping at the first
assertion failure or undefined behaviour. -/
def run : SysState → List Op → Except KernelError SysState
  | st, [] => .ok st
  | st, op :: ops =>
    match step st op with
    | .error e => .error e
    | .ok st1 => run st1 ops

/-- The boot state: an all-clear frame bitmap of the machine's frame count
(a `machine.h` constant outside the repository, hence a parameter), an
all-free 128-entry `ThreadMap`, an empty `vpTable`, no live spaces. -/
def initState (numFrames : Nat) : SysState :=
  { bitmap := List.replicate numFrames false,
    threadMap := List.replicate 128 false,
    vpTable := List.replicate MaxPages (-1),
    spaces := [],
    events := [] }

/-- Number of used bits in the frame bitmap (`BitMap::NumClear`'s
complement). -/
def usedBits (st : SysState) : Nat := st.bitmap.countP (· = true)

/-- Number of valid page-table entries of one space. -/
def validEntries (sp : Space) : Nat := sp.pageTable.countP (·.valid = true)

/-- Total number of valid page-table entries over all live spaces. -/
def totalValid (st : SysState) : Nat := (st.spaces.map validEntries).sum

/-- The page-table entry of space `sidx` at index `vpn`, when both exist. -/
def entryAt (st : SysState) (sidx vpn : Nat) : Option TranslationEntry :=
  (st.spaces.get? sidx).bind fun sp => sp.pageTable.get? vpn

/-- Whether some recorded swap-file write covers byte offset `off`. -/
def swapWriteTouching (off : Nat) (evs : List Event) : Bool :=
  evs.any fun e =>
    match e with
    | .swapWrite o l => decide (o ≤ off ∧ off < o + l)
    | _ => false

/-! ### Concrete executable images and operation sequences

The headers below are well-formed NOFF images (correct magic,
non-overlapping segments); the page counts follow from
`numPages = divRoundUp (code + initData + uninitData + UserStackSize) PageSize`. -/

/-- A 40-page demand-paged image: one code page, no initialized data, and
enough uninitialized data to reach 40 pages (`128 + 3968 + 1024 = 5120`
bytes). -/
def hdrA : NoffHeader :=
  { noffMagic := NOFFMAGIC
    code := ⟨128, 0, 40⟩
    initData := ⟨0, 0, 0⟩
    uninitData := ⟨3968, 0, 0⟩ }

/-- A 25-page demand-paged image: eight code pages, eight initialized-data
pages, one page of uninitialized data (`1024 + 1024 + 128 + 1024 = 3200`
bytes); its constructor eagerly loads 17 pages (8 code + 8 data + the last
page). -/
def hdrC : NoffHeader :=
  { noffMagic := NOFFMAGIC
    code := ⟨1024, 0, 40⟩
    initData := ⟨1024, 1024, 1064⟩
    uninitData := ⟨128, 0, 0⟩ }

/-- A 40-page demand-paged image with 24 initialized-data pages
(`1024 + 3072 + 0 + 1024 = 5120` bytes); its constructor tries to load
`8 + 1 + 24 = 33` pages eagerly. -/
def hdrC2 : NoffHeader :=
  { noffMagic := NOFFMAGIC
    code := ⟨1024, 0, 40⟩
    initData := ⟨3072, 1024, 1064⟩
    uninitData := ⟨0, 0, 0⟩ }

/-- A 17-page demand-paged image with a single initialized-data page
(`1024 + 128 + 0 + 1024 = 2176` bytes). -/
def hdrC7 : NoffHeader :=
  { noffMagic := NOFFMAGIC
    code := ⟨1024, 0, 40⟩
    initData := ⟨128, 1024, 1064⟩
    uninitData := ⟨0, 0, 0⟩ }

/-- A 9-page image (`128 + 0 + 0 + 1024 = 1152` bytes), below the
`MinPages` demand-paging threshold. -/
def hdrEager : NoffHeader :=
  { noffMagic := NOFFMAGIC
    code := ⟨128, 0, 40⟩
    initData := ⟨0, 0, 0⟩
    uninitData := ⟨0, 0, 0⟩ }

/-- An image whose magic matches neither raw nor byte-swapped
(`wordSwap 0 = 0 ≠ NOFFMAGIC`). -/
def hdrBad : NoffHeader :=
  { noffMagic := 0
    code := ⟨128, 0, 40⟩
    initData := ⟨0, 0, 0⟩
    uninitData := ⟨0, 0, 0⟩ }

/-- Page faults of space index 1 (the second live space) on pages
2-14, 16, 17, 18 and finally 15, in that order. -/
def faultsA : List Op :=
  ([2, 3, 4, 5, 6, 7, 8, 9, 10, 11, 12, 13, 14, 16, 17, 18, 15] : List Nat).map
    fun p => Op.fault 1 (p * PageSize)

/-- A reachable scenario on a 36-frame machine: load `hdrC` (17 frames) and
`hdrA` (2 frames); fault space `hdrA` on 17 pages, exhausting the bitmap;
fault page 20, which evicts page 15 (the most recently loaded) and hands its
frame to page 20 while page 15 retains the stale frame number; destroy the
first space (frees 17 frames); load `hdrC` again — its constructor wipes the
global `vpTable` and re-registers its own page numbers 24, 0-7, 8-15,
consuming all 17 free frames; fault space `hdrA` on page 21 — the handler
asks FIFO for a victim, gets virtual page 15 from the other space's
registrations, and "evicts" `hdrA`'s already-invalid page 15, copying its
stale frame number into page 21's entry. -/
def traceC1 : List Op :=
  [Op.create hdrC, Op.create hdrA] ++ faultsA ++
  [Op.fault 1 (20 * PageSize), Op.destroy 0, Op.create hdrC,
   Op.fault 0 (21 * PageSize)]

/-- Page faults of space index 0 on pages 1-17 in order. -/
def faultsC4 : List Op :=
  ([1, 2, 3, 4, 5, 6, 7, 8, 9, 10, 11, 12, 13, 14, 15, 16, 17] : List Nat).map
    fun p => Op.fault 0 (p * PageSize)

/-- A dirty-eviction scenario on a 19-frame machine: load `hdrA`, fault in
pages 1-17 until no frame is clear, dirty page 17 with a write access, then
fault page 20, forcing the eviction of the dirty page 17. -/
def traceC4 : List Op :=
  [Op.create hdrA] ++ faultsC4 ++ [Op.write 0 17, Op.fault 0 (20 * PageSize)]

/-- A `vpTable` holding pages 0, 1, 2 in load order. -/
def vpThree : List Int := (0 : Int) :: 1 :: 2 :: List.replicate 29 (-1)

/-- A `vpTable` holding pages 0 and 1 in load order. -/
def vpTwo : List Int := (0 : Int) :: 1 :: List.replicate 30 (-1)

/-- A two-page page table whose first page has its use (referenced) bit set
and whose second page does not. -/
def ptClockRef : List TranslationEntry :=
  [{ virtualPage := 0, physicalPage := 0, valid := true, use := true,
     dirty := false, readOnly := false },
   { virtualPage := 1, physicalPage := 1, valid := true, use := false,
     dirty := false, readOnly := false }]

/-- The same two-page table with both use bits clear. -/
def ptClockUnref : List TranslationEntry :=
  ptClockRef.map fun e => { e with use := false }

/-- A minimal kernel state used to instantiate the eviction-path theorem:
one fully used frame, one live three-page demand-paged space whose page 1 is
resident in frame 0 and registered in `vpTable`. -/
def spW : Space :=
  { spaceID := 0
    numPages := 3
    count := 1
    hasSwap := true
    pageTable :=
      [{ virtualPage := 0, physicalPage := -1, valid := false, use := false,
         dirty := false, readOnly := false },
       { virtualPage := 1, physicalPage := 0, valid := true, use := false,
         dirty := false, readOnly := false },
       { virtualPage := 2, physicalPage := -1, valid := false, use := false,
         dirty := false, readOnly := false }] }

/-- The kernel state around `spW`. -/
def stW : SysState :=
  { bitmap := [true]
    threadMap := (List.replicate 128 false).set 0 true
    vpTable := (1 : Int) :: List.replicate 31 (-1)
    spaces := [spW]
    events := [] }

/-- The state after faulting `stW` at address 256 (page 2), which takes the
eviction path. -/
def stW2e : SysState :=
  match pageFault stW 0 256 with
  | .ok s => s
  | .error _ => stW

/-- The `vpTable` left by `PageReplace(FIFO)` on `stW.vpTable`. -/
def vpAW : List Int :=
  match pageReplaceFIFO stW.vpTable with
  | .ok p => p.2
  | .error _ => []

/-- Reading the entry written by `modifyAt` back at the modified index gives
the transformed entry. -/
theorem modifyAt_get_at (l : List TranslationEntry) (i : Nat)
    (f : TranslationEntry → TranslationEntry) :
    (modifyAt l i f).get? i = (l.get? i).map f := by
  unfold modifyAt
  cases h : l.get? i with
  | none => simp [h, List.get?_eq_none.mp h]
  | some e =>
    obtain ⟨hlt, -⟩ := List.get?_eq_some.mp h
    simp [h, List.getElem?_set_eq_of_lt (f e) hlt]

/-! ### Claims -/

set_option maxRecDepth 100000

/-- C1.  Refuted: a reachable state holds one physical frame in two valid
page-table entries at once.  Running `traceC1` on a 36-frame machine
succeeds and leaves pages 20 and 21 of the surviving space both valid and
both holding physical frame 35: the global `vpTable` stores bare virtual
page numbers with no owning-space tag and is wiped and repopulated by every
`AddrSpace` constructor, so the page-fault handler evicts "page 15" as named
by the other space's registrations, finds the first space's page 15 already
invalid but still carrying its stale frame number, and copies that frame —
still validly held by page 20 — into page 21's entry. -/
theorem two_valid_entries_share_a_frame :
    (run (initState 36) traceC1).toOption.map (fun st =>
      ((entryAt st 0 20).map fun e => (e.valid, e.physicalPage),
       (entryAt st 0 21).map fun e => (e.valid, e.physicalPage))) =
    some (some (true, 35), some (true, 35)) := by
  rfl

/-- C2.  Refuted: after a single `AddrSpace` construction the used-bit count
of the frame bitmap differs from the total number of valid entries.  Loading
`hdrC2` on a 20-frame machine passes the constructor's
`ASSERT(phPages <= bitmap->NumClear())` (it checks only `MinPages = 16`),
but the eager loops then allocate 33 frames: `bitmap->Find()` starts
returning `-1` unchecked, and the data loop still marks every data page
valid.  The result: 20 used bits against 33 valid entries. -/
theorem used_bits_diverge_from_valid_entries :
    (run (initState 20) [Op.create hdrC2]).toOption.map
      (fun st => (usedBits st, totalValid st)) = some (20, 33) ∧
    (20 : Nat) ≠ 33 := by
  exact ⟨rfl, by decide⟩

/-- C3.  Refuted: the page-fault handler contains no bound check at all.
Faulting `hdrA` (40 pages) at address `40 * PageSize` makes the handler
dereference `pageTable[40]`, one past the table — an out-of-bounds access,
not the claimed fatal `FaultOnUnmappedAddress` diagnostic. -/
theorem fault_beyond_bound_is_out_of_bounds :
    run (initState 20) [Op.create hdrA, Op.fault 0 (40 * PageSize)] =
      .error .oobPageTable := by
  rfl

/-- C4.  Refuted: the dirty-victim write-back goes to the faulting page's
swap offset, not the victim's.  In `traceC4` the dirty victim is page 17
(swap offset `17 * PageSize = 2176`) and the faulting page is 20; the
recorded swap writes are the constructor's code mirror at offset 0 and one
eviction write-back at offset `20 * PageSize = 2560` — no write ever touches
offset 2176, because line 285 of `exception.cc` passes
`pageTable[page].virtualPage * PageSize`. -/
theorem dirty_victim_writeback_at_faulting_offset :
    (run (initState 19) traceC4).toOption.map (fun st =>
      (st.events.filter fun e =>
         match e with
         | .swapWrite _ _ => true
         | _ => false,
       swapWriteTouching (17 * PageSize) st.events)) =
    some ([Event.swapWrite 0 PageSize, Event.swapWrite (20 * PageSize) PageSize],
      false) := by
  rfl

/-- C5.  Refuted: with pages 0, 1, 2 resident in load order, the `FIFO`
branch of `PageReplace` returns page 2 — the most recently loaded page, not
the head — because it selects `vpTable[count-1]` after scanning for the
first empty slot; the subsequent shift silently drops head page 0 from the
table (it remains valid and untracked) while the returned victim 2 is still
listed. -/
theorem fifo_selects_most_recent :
    pageReplaceFIFO vpThree =
      .ok (2, (1 : Int) :: 2 :: List.replicate 30 (-1)) := by
  rfl

/-- C6.  Refuted: the `CLOCK` branch never clears a referenced bit (the
source writes `use == FALSE`, a comparison with no effect) and never
advances the examined entry past `vpTable[0]`.  With the head page
referenced, the scan runs to `MaxPages` and the shift reads
`vpTable[MaxPages]`; with the head page unreferenced, the break at count 0
reads `vpTable[-1]`.  Both are out-of-bounds accesses, not the claimed
clear-and-skip scan. -/
theorem clock_scan_is_undefined :
    pageReplaceCLOCK ptClockRef vpTwo = .error .oobVpTable ∧
    pageReplaceCLOCK ptClockUnref vpTwo = .error .oobVpTable := by
  exact ⟨rfl, rfl⟩

/-- C7.  Refuted on both halves.  Demand-paged half: loading `hdrC7` (one
initialized-data page at virtual page 8) records swap writes covering only
the code bytes 0-1023; no write ever covers the data page's offset
`8 * PageSize = 1024`, because the final data chunk is transferred with
`swapFile->ReadAt` (recorded as the `swapRead` at offset 2048, which also
uses `j` instead of `j - data_start`).  Eager half: loading `hdrEager`
(9 pages, below `MinPages`) creates no swap file, but page 2 is left
invalid — not every page is loaded eagerly. -/
theorem swap_region_misses_data_page :
    ((run (initState 20) [Op.create hdrC7]).toOption.map fun st =>
      (swapWriteTouching (8 * PageSize) st.events,
       st.events.contains (Event.swapRead (16 * PageSize) PageSize))) =
      some (false, true) ∧
    ((run (initState 20) [Op.create hdrEager]).toOption.map fun st =>
      (st.events, (entryAt st 0 2).map fun e => e.valid)) =
      some ([], some false) := by
  exact ⟨rfl, rfl⟩

/-- C8.  Refuted: the destructor calls `bitmap->Clear(pageTable[i].physicalPage)`
for every page regardless of validity.  Destroying a freshly created `hdrA`
space passes the out-of-range index `-1` to `Clear` 38 times — once per
never-resident page — violating the claimed "only in-range frame indices of
resident entries".  The spaceID is indeed freed. -/
theorem destructor_clears_out_of_range :
    ((run (initState 20) [Op.create hdrA, Op.destroy 0]).toOption.map fun st =>
      ((st.events.filter fun e => e == Event.bitmapClear (-1)).length,
       st.threadMap.getD 0 true)) = some (38, false) := by
  rfl

/-- C9 counterexample.  The claim says a bad-magic load fails only that
request with `LoadError` while the kernel continues; in the source the check
is `ASSERT(noffH.noffMagic == NOFFMAGIC)`, which halts the whole kernel.
Creating from `hdrBad` produces the kernel-abort outcome: there is no
`LoadError` return path and no continuing state. -/
theorem create_bad_magic_aborts :
    createSpace (initState 20) hdrBad = .error .assertFail := by
  rfl

/-- C9 amended.  When address-space creation fails — the header magic
matches neither raw nor byte-swapped, or the spaceID pool (`ThreadMap`) is
exhausted — the constructor fails a kernel `ASSERT`, aborting the whole
kernel rather than failing only the load request with a recoverable
`LoadError`. -/
theorem create_failure_aborts_kernel (st : SysState) (hd : NoffHeader)
    (hfail : (hd.noffMagic ≠ NOFFMAGIC ∧ wordSwap hd.noffMagic ≠ NOFFMAGIC) ∨
      st.threadMap.findIdx? (· = false) = none) :
    createSpace st hd = .error .assertFail := by
  unfold createSpace
  cases hfind : st.threadMap.findIdx? (· = false) with
  | none => rfl
  | some sid =>
    cases hfail with
    | inr hfull => rw [hfind] at hfull; exact absurd hfull (by simp)
    | inl hmag =>
      dsimp only
      have hc : ¬ (hd.noffMagic ≠ NOFFMAGIC ∧ wordSwap hd.noffMagic = NOFFMAGIC) :=
        fun hh => hmag.2 hh.2
      rw [if_neg hc, if_pos hmag.1]

/-- C9 amended, witness: the bad-magic header `hdrBad` on the boot state. -/
theorem create_failure_aborts_kernel_witness :
    createSpace (initState 20) hdrBad = .error .assertFail :=
  create_failure_aborts_kernel (initState 20) hdrBad (Or.inl (by decide))

/-- C10.  Confirmed: whenever a page fault is serviced through the eviction
path (the free-frame condition `NumClear >= 1 && count < MaxPages` fails)
and the handler returns normally, the frame bitmap is left completely
unchanged, and the faulting page's entry ends holding exactly the physical
frame the selected victim's entry held before the eviction. -/
theorem eviction_preserves_bitmap (st st2 : SysState) (sidx addr v : Nat)
    (sp : Space) (vpA : List Int)
    (hsp : st.spaces.get? sidx = some sp)
    (hsw : sp.hasSwap = true)
    (hcond : ¬ (1 ≤ bmNumClear st.bitmap ∧ sp.count < MaxPages))
    (hfifo : pageReplaceFIFO st.vpTable = .ok (v, vpA))
    (hok : pageFault st sidx addr = .ok st2) :
    st2.bitmap = st.bitmap ∧
    (entryAt st2 sidx (addr / PageSize)).map (fun e => e.physicalPage) =
      (entryAt st sidx v).map (fun e => e.physicalPage) := by
  unfold pageFault at hok
  rw [hsp] at hok
  dsimp only at hok
  simp only [hsw] at hok
  rw [if_neg (by decide : ¬ (true = false))] at hok
  cases hpe : sp.pageTable.get? (addr / PageSize) with
  | none => rw [hpe] at hok; exact absurd hok (by simp)
  | some pe =>
  rw [hpe] at hok
  dsimp only at hok
  rw [if_neg hcond, hfifo] at hok
  dsimp only at hok
  cases hve : sp.pageTable.get? v with
  | none => rw [hve] at hok; exact absurd hok (by simp)
  | some ve =>
  rw [hve] at hok
  dsimp only at hok
  obtain ⟨hplt, -⟩ := List.get?_eq_some.mp hpe
  obtain ⟨hslt, -⟩ := List.get?_eq_some.mp hsp
  injection hok with hok
  subst hok
  constructor
  · rfl
  · unfold entryAt
    rw [hsp, List.get?_set_eq_of_lt _ hslt]
    dsimp only [Option.bind]
    rw [modifyAt_get_at, List.get?_set, hpe, hve]
    split <;> simp

/-- C10 witness: faulting `stW` at address 256 exercises the eviction path
(no clear frame), evicting page 1 and handing frame 0 to page 2. -/
theorem eviction_preserves_bitmap_witness :
    stW2e.bitmap = stW.bitmap ∧
    (entryAt stW2e 0 (256 / PageSize)).map (fun e => e.physicalPage) =
      (entryAt stW 0 1).map (fun e => e.physicalPage) :=
  eviction_preserves_bitmap stW stW2e 0 256 1 spW vpAW rfl rfl
    (by decide) rfl rfl

end NachosVM
